import Mathlib

/-!
# Verification of the deploy-toolkit deployment orchestrator

Shallow embedding of the `@fjpedrosa/deploy-toolkit` repository
(`src/lib/config.ts`, `src/lib/history.ts`, `src/lib/health-check.ts`,
`src/lib/actions.ts`, `src/lib/version.ts`, `src/lib/validation.ts`) and
proofs about the embedded definitions.

Conventions of the embedding:
* JavaScript strings are Lean `String`s (character-level operations go
  through `List Char`).
* The SQLite deployments table is a `List DeploymentRow`; SQL `UPDATE`
  becomes a map over the rows, `NULL` is `Option.none`, and the
  JavaScript coalescing `x || null` (which also nulls falsy values such
  as `0` and `""`) is modelled by `orNullNat` / `orNullStr`.
* Effectful orchestrator code (`actions.ts`) is modelled by functions
  producing the ordered list of external effects (`Effect`) the success
  and early-return paths perform, together with an `ok` flag telling
  whether the step completed without an exception escaping.
* The health-verification wait loop (`waitForContainers`) is modelled
  with explicit time: `obs t` is the container state the runtime would
  report at millisecond `t`, sleeping advances the clock, and the loop
  is the recursive function `waitLoop`.
-/

namespace Deplokit

/-! ## Configuration model (`src/lib/config.ts`) -/

/-- `DeployType` from config.ts. -/
inductive DeployType where
  | local
  | remote
deriving DecidableEq, Repr

/-- `Environment` from config.ts. -/
inductive Environment where
  | development
  | stage
  | production
deriving DecidableEq, Repr

/-- `ProjectConfig` from config.ts. -/
structure ProjectConfig where
  name : String
  domain : String
deriving DecidableEq, Repr

/-- `DeploymentConfig` from config.ts (`type`, `path`, `vps_ip?`,
`ssh_user?`, `ssh_key?`, `confirmed?`). -/
structure DeploymentConfig where
  type : DeployType
  path : String
  vps_ip : Option String
  ssh_user : Option String
  ssh_key : Option String
  confirmed : Option Bool
deriving DecidableEq, Repr

/-- The object form of a service entry (`ServiceConfig` in config.ts). -/
structure ServiceObjectConfig where
  enabled : Bool
  dockerName : Option String
  healthEndpoint : Option String
  port : Option Nat
deriving DecidableEq, Repr

/-- One value of the `services` map: `boolean | ServiceConfig`. -/
inductive ServiceEntry where
  | bool (b : Bool)
  | obj (c : ServiceObjectConfig)
deriving DecidableEq, Repr

/-- `DeployConfig` from config.ts.  The `services` JSON object is kept as
an association list in declaration order (string keys of a JS object
preserve insertion order).  The optional `database`, `secrets` and
`paths` sections play no role in any claim and are elided. -/
structure DeployConfig where
  project : ProjectConfig
  deployment : DeploymentConfig
  services : List (String × ServiceEntry)
deriving DecidableEq, Repr

/-- The enabled flag of a service entry, as tested by
`getActiveServices` in config.ts: a boolean entry is its own flag, an
object entry contributes its `enabled` field. -/
def serviceEnabled : ServiceEntry → Bool
  | .bool b => b
  | .obj c => c.enabled

/-- `getActiveServices` from config.ts: filter the declared `services`
map to the enabled entries and keep the names, preserving declaration
order (`Object.entries(...).filter(...).map(([name]) => name)`). -/
def getActiveServices (config : DeployConfig) : List String :=
  (config.services.filter fun p => serviceEnabled p.2).map Prod.fst

/-- Character step of `serviceName.toLowerCase()` in
`normalizeServiceName` (JS `toLowerCase` restricted to basic latin,
matching `Char.toLower`). -/
def toLowerStr (l : List Char) : List Char := l.map Char.toLower

/-- Character step of the global dash-to-underscore replace in
`normalizeServiceName`. -/
def dashRepl (c : Char) : Char := if c = '-' then '_' else c

/-- The global dash-to-underscore replace in `normalizeServiceName`. -/
def dashToUnderscore (l : List Char) : List Char := l.map dashRepl

/-- `serviceName.toLowerCase()` followed by the global dash-to-underscore
replace, from `normalizeServiceName` in config.ts. -/
def jsNormalize (l : List Char) : List Char := dashToUnderscore (toLowerStr l)

/-- The fixed `aliasMap` of `normalizeServiceName` in config.ts. -/
def aliasMap : List (List Char × List Char) :=
  [("pdfworker".toList, "pdf_worker".toList),
   ("imageworker".toList, "image_worker".toList),
   ("emailworker".toList, "email_worker".toList),
   ("scraperworker".toList, "scraper_worker".toList),
   ("scraper".toList, "scraper_worker".toList),
   ("worker".toList, "scraper_worker".toList)]

/-- `normalizeServiceName` from config.ts on character lists: lower-case,
kebab-to-snake, then `aliasMap[normalized] || normalized`. -/
def normalizeServiceName (l : List Char) : List Char :=
  let normalized := jsNormalize l
  ((aliasMap.lookup normalized).getD normalized)

/-- `normalizeServiceName` on Lean strings. -/
def normalizeServiceNameS (s : String) : String :=
  ⟨normalizeServiceName s.data⟩

/-- `isServiceActive` from config.ts: normalize, look the service up in
the `services` map, and read its enabled flag (`false` when absent). -/
def isServiceActive (config : DeployConfig) (serviceName : String) : Bool :=
  match config.services.lookup (normalizeServiceNameS serviceName) with
  | some e => serviceEnabled e
  | none => false

/-- `validateService` from config.ts: the normalized name is a declared
key of the `services` map. -/
def validateService (config : DeployConfig) (serviceName : String) : Bool :=
  (config.services.lookup (normalizeServiceNameS serviceName)).isSome

/-- The underscore-to-dash step of `getDockerComposeServiceName`. -/
def underscoreToDash (s : String) : String :=
  ⟨s.data.map fun c => if c = '_' then '-' else c⟩

/-- `getDockerComposeServiceName` from config.ts: an explicit
`dockerName` override wins, otherwise `{project}-{kebab-case(name)}`. -/
def getDockerComposeServiceName (config : DeployConfig) (serviceName : String) : String :=
  let normalized := normalizeServiceNameS serviceName
  match config.services.lookup normalized with
  | some (.obj c) =>
      match c.dockerName with
      | some d => d
      | none => config.project.name ++ "-" ++ underscoreToDash normalized
  | _ => config.project.name ++ "-" ++ underscoreToDash normalized

/-- `getSSHConfig` from config.ts, reduced to the data the orchestrator
branches on: `none` for a local target, and for a remote target the
`user@ip` string when `vps_ip` is configured.  (A remote target without
`vps_ip` aborts the process in the source; here it is also `none`, and
the callers below treat that as the aborting branch.) -/
def getSSHConfig (config : DeployConfig) : Option String :=
  if config.deployment.type = DeployType.remote then
    config.deployment.vps_ip.map fun ip =>
      (config.deployment.ssh_user.getD "root") ++ "@" ++ ip
  else
    none

/-! ## Deployment history store (`src/lib/history.ts`) -/

/-- `DeploymentType` from history.ts. -/
inductive DeploymentType where
  | full
  | backend
  | frontend
  | service
deriving DecidableEq, Repr

/-- `DeploymentStatus` from history.ts. -/
inductive DeploymentStatus where
  | pending
  | in_progress
  | success
  | failed
  | rolled_back
deriving DecidableEq, Repr

/-- One row of the `deployments` SQLite table (`DeploymentRecord` in
history.ts).  `NULL`able columns are `Option`s. -/
structure DeploymentRow where
  id : Nat
  timestamp : String
  environment : Environment
  type : DeploymentType
  service : Option String
  commit_hash : Option String
  duration : Option Nat
  status : DeploymentStatus
  logs : Option String
  user : String
deriving DecidableEq, Repr

/-- JavaScript `duration || null`: `undefined` and the falsy value `0`
both become SQL `NULL`. -/
def orNullNat : Option Nat → Option Nat
  | none => none
  | some n => if n = 0 then none else some n

/-- JavaScript `logs || null`: `undefined` and the falsy empty string
both become SQL `NULL`. -/
def orNullStr : Option String → Option String
  | none => none
  | some s => if s = "" then none else some s

/-- `updateDeploymentStatus` from history.ts: the SQL statement
`UPDATE deployments SET status = ?, duration = ?, logs = ? WHERE id = ?`
run with `(status, duration || null, logs || null, id)`, over the table
as a list of rows. -/
def updateDeploymentStatus (db : List DeploymentRow) (id : Nat)
    (status : DeploymentStatus) (duration : Option Nat) (logs : Option String) :
    List DeploymentRow :=
  db.map fun r =>
    if r.id = id then
      { r with status := status, duration := orNullNat duration, logs := orNullStr logs }
    else r

/-- `markAsRolledBack` from history.ts: it simply calls
`updateDeploymentStatus(id, 'rolled_back')` with no duration and no
logs. -/
def markAsRolledBack (db : List DeploymentRow) (id : Nat) : List DeploymentRow :=
  updateDeploymentStatus db id DeploymentStatus.rolled_back none none

/-- The record returned by `getDeploymentStats` in history.ts.  The
JavaScript number `successRate` is modelled as a rational. -/
structure DeploymentStats where
  total : Nat
  success : Nat
  failed : Nat
  successRate : ℚ
deriving DecidableEq, Repr

/-- `getDeploymentStats` from history.ts: group the (optionally
environment-filtered) rows by status; `total` sums every group,
`success` and `failed` read their groups, and
`successRate = (success / total) * 100` when `total > 0`, else `0` —
with no rounding applied. -/
def getDeploymentStats (environment : Option Environment) (db : List DeploymentRow) :
    DeploymentStats :=
  let rows : List DeploymentRow := match environment with
    | some e => db.filter fun (r : DeploymentRow) => decide (r.environment = e)
    | none => db
  let total := rows.length
  let success :=
    (rows.filter fun (r : DeploymentRow) => decide (r.status = DeploymentStatus.success)).length
  let failed :=
    (rows.filter fun (r : DeploymentRow) => decide (r.status = DeploymentStatus.failed)).length
  { total := total
    success := success
    failed := failed
    successRate := if total > 0 then ((success : ℚ) / (total : ℚ)) * 100 else 0 }

/-! ## Health verification (`src/lib/health-check.ts`) -/

/-- The triple printed by
`docker inspect --format {{.State.Health.Status}}|{{.State.Status}}|{{.State.Running}}`
as parsed by `checkContainerActualHealth`. -/
structure InspectState where
  healthStatus : String
  state : String
  running : String
deriving DecidableEq, Repr

/-- `HealthCheckResult` from health-check.ts. -/
structure HealthCheckResult where
  service : String
  healthy : Bool
  message : String
  details : Option String
deriving DecidableEq, Repr

/-- `checkContainerActualHealth` from health-check.ts: a container with
no configured healthcheck (empty health status or `<no value>`) is
healthy iff it is running; a container with a healthcheck is healthy iff
the probe reports `healthy` (`starting` and `unhealthy` are not
healthy). -/
def checkContainerActualHealth (containerName serviceName : String)
    (i : InspectState) : HealthCheckResult :=
  if i.healthStatus = "" ∨ i.healthStatus = "<no value>" then
    if i.running = "true" ∧ i.state = "running" then
      { service := serviceName, healthy := true, message := "Running"
        details := some "No healthcheck configured" }
    else
      { service := serviceName, healthy := false
        message := "State: " ++ i.state
        details := some (if i.running = "true" then "Running but not healthy" else "Not running") }
  else if i.healthStatus = "healthy" then
    { service := serviceName, healthy := true, message := "Healthy"
      details := some "Container and healthcheck OK" }
  else if i.healthStatus = "starting" then
    { service := serviceName, healthy := false, message := "Starting"
      details := some "Healthcheck in start_period" }
  else
    { service := serviceName, healthy := false, message := "Unhealthy"
      details := some ("Health status: " ++ i.healthStatus) }

/-- One container as observed by a poll cycle of `waitForContainers`:
the `docker compose ps` line (`ContainerStatus` in docker.ts) together
with the `docker inspect` state the same instant would report. -/
structure ContainerObs where
  name : String
  state : String
  status : String
  service : String
  inspect : InspectState
deriving DecidableEq, Repr

/-- `c.status.includes('Restarting')` from `waitForContainers`. -/
def hasRestarting (s : String) : Bool :=
  decide (List.IsInfix "Restarting".toList s.toList)

/-- Outcome of one poll cycle of `waitForContainers`, in source order:
no containers yet (sleep 2000), no containers left after the project
filter (sleep 2000), a restarting container (sleep 3000), not every
container healthy (sleep 5000), or all healthy (exit the loop). -/
inductive PollOutcome where
  | notStarted
  | noProjectContainers
  | restarting
  | notAllHealthy
  | healthy
deriving DecidableEq, Repr

/-- One poll cycle of `waitForContainers` from health-check.ts, applied
to the containers `cs` observed in this cycle.  The project-prefix
filter runs only when a `config` was passed in the options. -/
def pollCycle (config : Option DeployConfig) (cs : List ContainerObs) : PollOutcome :=
  if cs.length = 0 then PollOutcome.notStarted
  else
    let filtered : List ContainerObs := match config with
      | some c => cs.filter fun (cont : ContainerObs) =>
          cont.service.startsWith (c.project.name ++ "-")
          || cont.name.startsWith (c.project.name ++ "-")
      | none => cs
    if filtered.length = 0 then PollOutcome.noProjectContainers
    else if 0 < (filtered.filter fun (c : ContainerObs) => hasRestarting c.status).length then
      PollOutcome.restarting
    else if (filtered.filter fun (c : ContainerObs) =>
        (checkContainerActualHealth c.name c.service c.inspect).healthy).length
        = filtered.length then
      PollOutcome.healthy
    else PollOutcome.notAllHealthy

/-- The `while (Date.now() - startTime < maxWaitTime && !allHealthy)`
loop of `waitForContainers`, with explicit time: `e` is the elapsed
time, `obs (start + e)` the containers the runtime reports at that
instant, and each `sleep` advances the clock by its argument.  On
success it returns `Except.ok` with the exit time; when the deadline
elapses it models `throw new Error('Deployment failed: ...')` as
`Except.error` carrying the time at which the timeout error is
raised. -/
def waitLoop (obs : Nat → List ContainerObs) (config : Option DeployConfig)
    (maxWaitTime start : Nat) (e : Nat) : Except Nat Nat :=
  if h : e < maxWaitTime then
    match pollCycle config (obs (start + e)) with
    | PollOutcome.healthy => Except.ok (start + e)
    | PollOutcome.notStarted => waitLoop obs config maxWaitTime start (e + 2000)
    | PollOutcome.noProjectContainers => waitLoop obs config maxWaitTime start (e + 2000)
    | PollOutcome.restarting => waitLoop obs config maxWaitTime start (e + 3000)
    | PollOutcome.notAllHealthy => waitLoop obs config maxWaitTime start (e + 5000)
  else Except.error (start + e)
termination_by maxWaitTime - e
decreasing_by
  all_goals omega

/-- The default `maxWaitTime` of `waitForContainers` (3 minutes). -/
def defaultMaxWaitTime : Nat := 180000

/-- The `waitForContainers` call made by `deployServiceRemote` and
`deployServiceLocal` in actions.ts: the options carry no `config` and
no service scope, so the poll runs unfiltered with the default
deadline. -/
def deployServiceHealthWait (obs : Nat → List ContainerObs) : Except Nat Nat :=
  waitLoop obs none defaultMaxWaitTime 0 0

/-! ## Deployment orchestrator (`src/lib/actions.ts`)

Each entry point is modelled as a function from the configuration and
the decisions of the external world (operator answers at the prompts,
validation outcome, whether the health wait succeeds) to the ordered
list of external effects it performs, plus a flag telling whether the
step finished without an exception escaping.  Pure console output is not
an effect. -/

/-- External effects of the orchestrator. -/
inductive Effect where
  /-- The interactive double-confirmation of `confirmProductionDeploy`
  (validation.ts). -/
  | confirmProdPrompt
  /-- The `Deploy anyway?` prompt for an inactive service in
  `deployService`. -/
  | confirmAnywayPrompt
  /-- `saveDeployment` in history.ts: creates the `in_progress`
  deployment record. -/
  | saveDeployment (type : DeploymentType) (service : Option String)
  /-- `runPreDeployValidations` (validation.ts). -/
  | runValidations
  /-- `updateDeploymentStatus` in history.ts, with the terminal status
  written. -/
  | updateStatus (status : DeploymentStatus)
  /-- `createRemoteDirectory` (ssh.ts). -/
  | createRemoteDir (path : String)
  /-- `syncRootFiles` (ssh.ts). -/
  | syncRootFiles
  /-- `syncBackendFolder` (ssh.ts). -/
  | syncBackendFolder
  /-- `syncSharedFolder` (ssh.ts). -/
  | syncSharedFolder
  /-- `installRemoteDependencies` (ssh.ts). -/
  | installRemoteDeps
  /-- `executeRemoteCommand` with the literal command string. -/
  | remoteCmd (cmd : String)
  /-- `dockerComposePull` (docker.ts), local. -/
  | dockerPull
  /-- `dockerComposeUp` (docker.ts), local, whole stack. -/
  | dockerUp (forceRecreate : Bool)
  /-- `dockerComposeUp` (docker.ts), local, one service with
  `noDeps`. -/
  | dockerUpService (service : String)
  /-- A `waitForContainers` call; the argument records which `config`
  (and hence which project filter) the options carried. -/
  | waitContainers (config : Option DeployConfig)
  /-- `runHealthCheck` (health-check.ts). -/
  | healthCheck
  /-- `writeDeployedVersion` (version.ts): writing the
  `.deployed-version` marker file at the remote deploy root. -/
  | writeVersion
deriving DecidableEq

/-- Effects of a step together with whether it completed without an
exception escaping to the caller. -/
structure StepResult where
  effects : List Effect
  ok : Bool
deriving DecidableEq

/-- Effect trace of `deployBackendRemote` in actions.ts.
`containerCount` is the number of existing containers reported by the
remote `docker compose ps -q`; `waitOk` tells whether
`waitForContainers` finds every container healthy before its deadline
(when it does not, it throws and the effects stop there). -/
def deployBackendRemoteRun (c : DeployConfig) (containerCount : Nat)
    (skipHealthCheck waitOk : Bool) : StepResult :=
  if (getSSHConfig c).isSome then
    let p := c.deployment.path
    let dockerCmd :=
      if containerCount > 0 then "docker compose up -d --build --force-recreate"
      else "docker compose up -d --build"
    let pre : List Effect :=
      [Effect.createRemoteDir p,
       Effect.createRemoteDir (p ++ "/packages"),
       Effect.createRemoteDir (p ++ "/packages/backend"),
       Effect.createRemoteDir (p ++ "/packages/shared"),
       Effect.syncRootFiles, Effect.syncBackendFolder, Effect.syncSharedFolder,
       Effect.remoteCmd ("cd " ++ p ++ "/packages/backend && docker compose ps -q"),
       Effect.remoteCmd ("cd " ++ p ++ "/packages/backend && docker compose pull"),
       Effect.remoteCmd ("cd " ++ p ++ "/packages/backend && " ++ dockerCmd),
       Effect.waitContainers none]
    if waitOk then
      ⟨pre ++ (if skipHealthCheck then [] else [Effect.healthCheck]), true⟩
    else ⟨pre, false⟩
  else ⟨[], false⟩

/-- Effect trace of `deployBackendLocal` in actions.ts. -/
def deployBackendLocalRun (containerCount : Nat)
    (skipHealthCheck waitOk : Bool) : StepResult :=
  let pre : List Effect :=
    [Effect.dockerPull, Effect.dockerUp (containerCount > 0), Effect.waitContainers none]
  if waitOk then
    ⟨pre ++ (if skipHealthCheck then [] else [Effect.healthCheck]), true⟩
  else ⟨pre, false⟩

/-- Effect trace of `deployBackend` in actions.ts.  In production the
double-confirmation runs only when `skipValidations` is not set (the
flag doubles as the came-from-`deployAll` marker); declining returns
before any record is created.  A validation failure finalizes the record
as failed and returns; an exception from the deploy body is caught,
finalizes the record as failed, and is rethrown. -/
def deployBackendRun (c : DeployConfig) (environment : Environment)
    (skipValidations skipHealthCheck confirmProd validationPassed : Bool)
    (containerCount : Nat) (waitOk : Bool) : StepResult :=
  let body : StepResult :=
    let save := Effect.saveDeployment DeploymentType.backend none
    if skipValidations = false ∧ validationPassed = false then
      ⟨[save, Effect.runValidations, Effect.updateStatus DeploymentStatus.failed], true⟩
    else
      let valEff : List Effect := if skipValidations then [] else [Effect.runValidations]
      let sub :=
        if c.deployment.type = DeployType.remote then
          deployBackendRemoteRun c containerCount skipHealthCheck waitOk
        else deployBackendLocalRun containerCount skipHealthCheck waitOk
      if sub.ok then
        ⟨save :: valEff ++ sub.effects ++ [Effect.updateStatus DeploymentStatus.success], true⟩
      else
        ⟨save :: valEff ++ sub.effects ++ [Effect.updateStatus DeploymentStatus.failed], false⟩
  if environment = Environment.production ∧ skipValidations = false then
    if confirmProd then ⟨Effect.confirmProdPrompt :: body.effects, body.ok⟩
    else ⟨[Effect.confirmProdPrompt], true⟩
  else body

/-- Effect trace of `deployAll` in actions.ts.  Production always
prompts before the `full` record is created; `deployBackend` is invoked
as a sub-step with `skipValidations: true`; a failure in the body is
caught, the record finalized as failed, and `handleError` aborts. -/
def deployAllRun (c : DeployConfig) (environment : Environment)
    (skipValidations skipHealthCheck confirmProd validationPassed : Bool)
    (containerCount : Nat) (waitOk : Bool) : StepResult :=
  if environment = Environment.production ∧ confirmProd = false then
    ⟨[Effect.confirmProdPrompt], true⟩
  else
    let prompt : List Effect :=
      if environment = Environment.production then [Effect.confirmProdPrompt] else []
    let save := Effect.saveDeployment DeploymentType.full none
    if skipValidations = false ∧ validationPassed = false then
      ⟨prompt ++ [save, Effect.runValidations, Effect.updateStatus DeploymentStatus.failed], true⟩
    else
      let valEff : List Effect := if skipValidations then [] else [Effect.runValidations]
      let sub := deployBackendRun c environment true skipHealthCheck confirmProd
        validationPassed containerCount waitOk
      if sub.ok then
        ⟨prompt ++ [save] ++ valEff ++ sub.effects
          ++ (if skipHealthCheck then [] else [Effect.healthCheck])
          ++ [Effect.updateStatus DeploymentStatus.success], true⟩
      else
        ⟨prompt ++ [save] ++ valEff ++ sub.effects
          ++ [Effect.updateStatus DeploymentStatus.failed], false⟩

/-- Effect trace of `deployServiceRemote` in actions.ts: sync, install
dependencies, `docker compose up -d --no-deps --build <dockerName>`,
then `waitForContainers` with options carrying no `config` and no
service scope. -/
def deployServiceRemoteRun (c : DeployConfig) (serviceName : String)
    (skipHealthCheck waitOk : Bool) : StepResult :=
  if (getSSHConfig c).isSome then
    let pre : List Effect :=
      [Effect.syncRootFiles, Effect.syncBackendFolder, Effect.syncSharedFolder,
       Effect.installRemoteDeps,
       Effect.remoteCmd ("cd " ++ c.deployment.path
         ++ "/packages/backend && docker compose up -d --no-deps --build "
         ++ getDockerComposeServiceName c serviceName),
       Effect.waitContainers none]
    if waitOk then
      ⟨pre ++ (if skipHealthCheck then [] else [Effect.healthCheck]), true⟩
    else ⟨pre, false⟩
  else ⟨[], false⟩

/-- Effect trace of `deployServiceLocal` in actions.ts. -/
def deployServiceLocalRun (c : DeployConfig) (serviceName : String)
    (skipHealthCheck waitOk : Bool) : StepResult :=
  let pre : List Effect :=
    [Effect.dockerUpService (getDockerComposeServiceName c serviceName),
     Effect.waitContainers none]
  if waitOk then
    ⟨pre ++ (if skipHealthCheck then [] else [Effect.healthCheck]), true⟩
  else ⟨pre, false⟩

/-- Effect trace of `deployService` in actions.ts: normalize and
validate the requested name (unknown service: plain return), offer the
`Deploy anyway?` override for an inactive service, create the record,
validate, and run the remote or local service deploy.  There is no
production confirmation prompt on this path. -/
def deployServiceRun (c : DeployConfig) (serviceName : String)
    (environment : Environment)
    (skipValidations skipHealthCheck confirmAnyway validationPassed waitOk : Bool) :
    StepResult :=
  let normalized := normalizeServiceNameS serviceName
  if validateService c normalized = false then ⟨[], true⟩
  else
    let gatePrompt : List Effect :=
      if isServiceActive c normalized then [] else [Effect.confirmAnywayPrompt]
    if isServiceActive c normalized = false ∧ confirmAnyway = false then
      ⟨gatePrompt, true⟩
    else
      let save := Effect.saveDeployment DeploymentType.service (some normalized)
      if skipValidations = false ∧ validationPassed = false then
        ⟨gatePrompt ++ [save, Effect.runValidations,
          Effect.updateStatus DeploymentStatus.failed], true⟩
      else
        let valEff : List Effect := if skipValidations then [] else [Effect.runValidations]
        let sub :=
          if c.deployment.type = DeployType.remote then
            deployServiceRemoteRun c normalized skipHealthCheck waitOk
          else deployServiceLocalRun c normalized skipHealthCheck waitOk
        if sub.ok then
          ⟨gatePrompt ++ [save] ++ valEff ++ sub.effects
            ++ [Effect.updateStatus DeploymentStatus.success], true⟩
        else
          ⟨gatePrompt ++ [save] ++ valEff ++ sub.effects
            ++ [Effect.updateStatus DeploymentStatus.failed], false⟩

/-! ## Helper lemmas -/

theorem char_toNat_ofNat {n : Nat} (h : n.isValidChar) : (Char.ofNat n).toNat = n := by
  simp [Char.ofNat, dif_pos h, Char.ofNatAux, Char.toNat, UInt32.toNat, BitVec.toNat_ofNatLt]

theorem toLower_idem (c : Char) : c.toLower.toLower = c.toLower := by
  simp only [Char.toLower]
  by_cases h : c.toNat ≥ 65 ∧ c.toNat ≤ 90
  · rw [if_pos h]
    have hv : Nat.isValidChar (c.toNat + 32) := Or.inl (by omega)
    have ht : (Char.ofNat (c.toNat + 32)).toNat = c.toNat + 32 := char_toNat_ofNat hv
    rw [if_neg]
    rw [ht]
    omega
  · rw [if_neg h, if_neg h]

theorem dashRepl_toLower_idem (c : Char) :
    dashRepl (Char.toLower (dashRepl (Char.toLower c))) = dashRepl (Char.toLower c) := by
  unfold dashRepl
  by_cases h : Char.toLower c = '-'
  · rw [if_pos h]
    norm_num [show ('_').toLower = '_' from rfl]
  · rw [if_neg h, toLower_idem, if_neg h]

theorem jsNormalize_idem (l : List Char) : jsNormalize (jsNormalize l) = jsNormalize l := by
  unfold jsNormalize dashToUnderscore toLowerStr
  simp only [List.map_map]
  apply List.map_congr_left
  intro a _
  simp only [Function.comp_apply]
  exact dashRepl_toLower_idem a

theorem lookup_mem_snd {α β : Type} [BEq α] {l : List (α × β)} {k : α} {v : β}
    (h : List.lookup k l = some v) : v ∈ l.map Prod.snd := by
  induction l with
  | nil => simp [List.lookup] at h
  | cons p t ih =>
    obtain ⟨a, b⟩ := p
    rw [List.lookup] at h
    cases hkp : (k == a) with
    | true => simp [hkp] at h; simp [h]
    | false =>
      simp [hkp] at h
      simp [ih h]

theorem normalizeServiceName_idem (l : List Char) :
    normalizeServiceName (normalizeServiceName l) = normalizeServiceName l := by
  unfold normalizeServiceName
  cases hl : aliasMap.lookup (jsNormalize l) with
  | none => simp [hl, jsNormalize_idem l]
  | some v =>
    simp only [hl, Option.getD_some]
    have hv : v ∈ aliasMap.map Prod.snd := lookup_mem_snd hl
    simp only [aliasMap, List.map_cons, List.map_nil, List.mem_cons, List.not_mem_nil,
      or_false] at hv
    rcases hv with rfl | rfl | rfl | rfl | rfl | rfl <;> decide

/-! ## Claim theorems -/

/-- **C9**: `resolveServiceName` (`normalizeServiceName` in config.ts) is
a total, pure function on strings (it is a Lean function) and is
idempotent: applying it twice gives the same result as applying it
once, for every raw service identifier. -/
theorem normalizeServiceName_idempotent (s : String) :
    normalizeServiceNameS (normalizeServiceNameS s) = normalizeServiceNameS s := by
  unfold normalizeServiceNameS
  exact congrArg String.mk (normalizeServiceName_idem s.data)

/-- The configuration of Scenario A of the spec: services
`{api: true, pdf_worker: {enabled: true, dockerName: "x-pdf"}, email_worker: false}`. -/
def exampleConfig : DeployConfig :=
  { project := { name := "myapp", domain := "myapp.com" }
    deployment := { type := DeployType.local, path := "/opt/myapp",
                    vps_ip := none, ssh_user := none, ssh_key := none, confirmed := none }
    services :=
      [("api", ServiceEntry.bool true),
       ("pdf_worker", ServiceEntry.obj
         { enabled := true, dockerName := some "x-pdf", healthEndpoint := none, port := none }),
       ("email_worker", ServiceEntry.bool false)] }

/-- **C8**: `activeServices(config)` returns exactly the declared
services whose entry is boolean `true` or an object with
`enabled: true`, in declaration order (a sublist of the declared name
order), never a service whose flag is `false` or whose object form has
`enabled: false`; on the example configuration it returns
`["api", "pdf_worker"]` in that order. -/
theorem getActiveServices_spec :
    (∀ (config : DeployConfig) (name : String),
      name ∈ getActiveServices config ↔
        ∃ e, (name, e) ∈ config.services ∧ serviceEnabled e = true) ∧
    (∀ config : DeployConfig,
      (getActiveServices config).Sublist (config.services.map Prod.fst)) ∧
    getActiveServices exampleConfig = ["api", "pdf_worker"] := by
  refine ⟨?_, ?_, by decide⟩
  · intro config name
    simp only [getActiveServices, List.mem_map, List.mem_filter]
    constructor
    · rintro ⟨⟨n, e⟩, ⟨hm, he⟩, hn⟩
      exact ⟨e, by rwa [show n = name from hn] at hm, he⟩
    · rintro ⟨e, hm, he⟩
      exact ⟨(name, e), ⟨hm, he⟩, rfl⟩
  · intro config
    exact List.Sublist.map Prod.fst (List.filter_sublist config.services)

/-- Closed instance of `getActiveServices_spec`: on the example
configuration, `api` (enabled `true`) is in the active set. -/
theorem getActiveServices_spec_witness :
    "api" ∈ getActiveServices exampleConfig :=
  (getActiveServices_spec.1 exampleConfig "api").mpr
    ⟨ServiceEntry.bool true, by decide, by decide⟩

/-- A `deployments` row with the given id and status (fixed values for
the remaining columns). -/
def exampleRow (n : Nat) (st : DeploymentStatus) : DeploymentRow :=
  { id := n, timestamp := "2024-01-01T00:00:00Z", environment := Environment.production
    type := DeploymentType.backend, service := none, commit_hash := none
    duration := none, status := st, logs := none, user := "ops" }

/-- Scenario E table: records `[success, success, failed]`. -/
def statsExampleDB : List DeploymentRow :=
  [exampleRow 1 DeploymentStatus.success,
   exampleRow 2 DeploymentStatus.success,
   exampleRow 3 DeploymentStatus.failed]

/-- **C5** counterexample: over records `[success, success, failed]`
`getDeploymentStats` does return total 3, success 2, failed 1, but
`successRate` is the unrounded `(2/3)*100 = 200/3`, not the two-decimal
rounding `66.67` the claim states. -/
theorem getDeploymentStats_rate_not_rounded :
    (getDeploymentStats none statsExampleDB).total = 3 ∧
    (getDeploymentStats none statsExampleDB).success = 2 ∧
    (getDeploymentStats none statsExampleDB).failed = 1 ∧
    (getDeploymentStats none statsExampleDB).successRate ≠ 6667 / 100 := by
  refine ⟨by decide, by decide, by decide, ?_⟩
  show ((2 : ℚ) / 3) * 100 ≠ 6667 / 100
  norm_num

/-- **C5** (amended): over `[success, success, failed]`, `stats()`
returns total 3, success 2, failed 1 and `successRate` exactly
`200/3 ≈ 66.67` with **no** rounding applied; in general `successRate`
is exactly `success/total * 100` when total is positive and `0` when the
(filtered) table is empty. -/
theorem getDeploymentStats_spec :
    getDeploymentStats none statsExampleDB =
      { total := 3, success := 2, failed := 1, successRate := 200 / 3 } ∧
    ∀ (env : Option Environment) (db : List DeploymentRow),
      (getDeploymentStats env db).successRate =
        if (getDeploymentStats env db).total > 0 then
          ((getDeploymentStats env db).success : ℚ)
            / ((getDeploymentStats env db).total : ℚ) * 100
        else 0 := by
  constructor
  · have h1 : (getDeploymentStats none statsExampleDB).total = 3 := by decide
    have h2 : (getDeploymentStats none statsExampleDB).success = 2 := by decide
    have h3 : (getDeploymentStats none statsExampleDB).failed = 1 := by decide
    have h4 : (getDeploymentStats none statsExampleDB).successRate = ((2 : ℚ) / 3) * 100 := rfl
    cases hs : getDeploymentStats none statsExampleDB
    rw [hs] at h1 h2 h3 h4
    simp only at h1 h2 h3 h4
    subst h1; subst h2; subst h3
    rw [DeploymentStats.mk.injEq]
    refine ⟨rfl, rfl, rfl, ?_⟩
    rw [h4]; norm_num
  · intro env db
    rfl

/-- A record still `in_progress`, with a recorded commit and logs. -/
def inProgressRow : DeploymentRow :=
  { id := 7, timestamp := "2024-02-02T12:00:00Z", environment := Environment.production
    type := DeploymentType.backend, service := none, commit_hash := some "abc1234"
    duration := some 42, status := DeploymentStatus.in_progress
    logs := some "syncing", user := "ops" }

/-- **C3** counterexample: `markAsRolledBack` on a record whose stored
status is `in_progress` is *not* rejected — the record's status is
changed to `rolled_back` (the code performs no status check at all). -/
theorem markAsRolledBack_in_progress_not_rejected :
    (markAsRolledBack [inProgressRow] 7).map (fun r => r.status)
      = [DeploymentStatus.rolled_back] ∧
    DeploymentStatus.rolled_back ≠ DeploymentStatus.in_progress := by
  constructor
  · decide
  · decide

/-- **C3** (amended): `markAsRolledBack` performs no status check: every
row whose id matches is set to `rolled_back` whatever its current status
— including `in_progress` — and rows with other ids keep their
status. -/
theorem markAsRolledBack_unconditional :
    ∀ (db : List DeploymentRow) (id : Nat),
      (markAsRolledBack db id).map (fun r => r.status) =
        db.map fun r => if r.id = id then DeploymentStatus.rolled_back else r.status := by
  intro db id
  unfold markAsRolledBack updateDeploymentStatus
  simp only [List.map_map]
  apply List.map_congr_left
  intro r _
  by_cases h : r.id = id <;> simp [h]

/-- A finalized (success) record with recorded duration and logs. -/
def finalizedRow : DeploymentRow :=
  { id := 3, timestamp := "2024-03-03T08:00:00Z", environment := Environment.stage
    type := DeploymentType.service, service := some "pdf_worker"
    commit_hash := some "deadbee", duration := some 42
    status := DeploymentStatus.success, logs := some "deploy log", user := "ops" }

/-- **C10** counterexample: a *supplied* duration of `0` seconds is not
stored as the supplied value — the JavaScript coalescing `duration || null`
turns the falsy `0` into SQL `NULL`, so the claim's "sets duration and
logs to the supplied values" fails at duration `0`. -/
theorem updateDeploymentStatus_zero_duration_nulled :
    (updateDeploymentStatus [finalizedRow] 3 DeploymentStatus.failed (some 0)
        (some "boom")).map (fun r => r.duration) = [none] ∧
    (some 0 : Option Nat) ≠ none := by
  constructor
  · decide
  · decide

/-- **C10** (amended): `updateDeploymentStatus` rewrites exactly the
`status`, `duration` and `logs` columns of the matching row — `duration`
and `logs` become the supplied values when these are truthy (nonzero,
nonempty) and `NULL` when omitted *or falsy* — while every other column
and every other row is untouched; `markAsRolledBack`, which supplies
neither, therefore erases the recorded duration and logs. -/
theorem updateDeploymentStatus_frame
    (db : List DeploymentRow) (id : Nat) (st : DeploymentStatus)
    (d : Option Nat) (l : Option String) (r : DeploymentRow) (hr : r ∈ db) :
    (r.id ≠ id → r ∈ updateDeploymentStatus db id st d l) ∧
    (r.id = id →
      { r with status := st, duration := orNullNat d, logs := orNullStr l }
        ∈ updateDeploymentStatus db id st d l) ∧
    (∀ n, d = some n → n ≠ 0 → orNullNat d = some n) ∧
    (∀ s, l = some s → s ≠ "" → orNullStr l = some s) ∧
    (r.id = id →
      { r with status := DeploymentStatus.rolled_back, duration := none, logs := none }
        ∈ markAsRolledBack db id) := by
  refine ⟨?_, ?_, ?_, ?_, ?_⟩
  · intro hne
    have : (fun rr : DeploymentRow =>
        if rr.id = id then
          { rr with status := st, duration := orNullNat d, logs := orNullStr l }
        else rr) r = r := by simp [hne]
    unfold updateDeploymentStatus
    exact this ▸ List.mem_map_of_mem _ hr
  · intro heq
    have : (fun rr : DeploymentRow =>
        if rr.id = id then
          { rr with status := st, duration := orNullNat d, logs := orNullStr l }
        else rr) r
        = { r with status := st, duration := orNullNat d, logs := orNullStr l } := by
      simp [heq]
    unfold updateDeploymentStatus
    exact this ▸ List.mem_map_of_mem _ hr
  · intro n hd hn
    subst hd
    simp [orNullNat, hn]
  · intro s hl hs
    subst hl
    simp [orNullStr, hs]
  · intro heq
    have : (fun rr : DeploymentRow =>
        if rr.id = id then
          { rr with status := DeploymentStatus.rolled_back,
                    duration := orNullNat none, logs := orNullStr none }
        else rr) r
        = { r with status := DeploymentStatus.rolled_back,
                   duration := none, logs := none } := by
      simp [heq, orNullNat, orNullStr]
    unfold markAsRolledBack updateDeploymentStatus
    exact this ▸ List.mem_map_of_mem _ hr

/-- Closed instance of `updateDeploymentStatus_frame`: rolling back the
finalized example record erases its duration and logs while keeping its
commit hash. -/
theorem updateDeploymentStatus_frame_witness :
    ({ finalizedRow with status := DeploymentStatus.rolled_back,
                         duration := none, logs := none } : DeploymentRow)
      ∈ markAsRolledBack [finalizedRow] 3 :=
  (updateDeploymentStatus_frame [finalizedRow] 3 DeploymentStatus.rolled_back none none
      finalizedRow (by decide)).2.2.2.2 (by decide)

/-- **C7**: the container health verdict of
`checkContainerActualHealth`: with no configured health probe (empty or
`<no value>` probe state) a container is judged healthy iff its runtime
state is `running` (assuming the runtime's `Running` flag agrees with
the `running` state); with a probe it is judged healthy iff the probe
reports `healthy` — in particular `starting` and `unhealthy` probe
states yield not-healthy. -/
theorem checkContainerActualHealth_spec
    (containerName serviceName : String) (i : InspectState)
    (hrun : i.state = "running" → i.running = "true") :
    ((i.healthStatus = "" ∨ i.healthStatus = "<no value>") →
      ((checkContainerActualHealth containerName serviceName i).healthy = true
        ↔ i.state = "running")) ∧
    ((i.healthStatus ≠ "" ∧ i.healthStatus ≠ "<no value>") →
      ((checkContainerActualHealth containerName serviceName i).healthy = true
        ↔ i.healthStatus = "healthy")) ∧
    ((i.healthStatus = "starting" ∨ i.healthStatus = "unhealthy") →
      (checkContainerActualHealth containerName serviceName i).healthy = false) := by
  unfold checkContainerActualHealth
  refine ⟨?_, ?_, ?_⟩
  · intro hnp
    rw [if_pos hnp]
    constructor
    · intro hh
      by_cases hb : i.running = "true" ∧ i.state = "running"
      · exact hb.2
      · rw [if_neg hb] at hh
        simp at hh
    · intro hs
      rw [if_pos ⟨hrun hs, hs⟩]
  · intro hp
    rw [if_neg (by push_neg; exact hp)]
    by_cases hh : i.healthStatus = "healthy"
    · rw [if_pos hh]
      simp [hh]
    · rw [if_neg hh]
      by_cases hst : i.healthStatus = "starting"
      · rw [if_pos hst]
        simp [hh]
      · rw [if_neg hst]
        simp [hh]
  · intro hsu
    have hp : ¬(i.healthStatus = "" ∨ i.healthStatus = "<no value>") := by
      rcases hsu with h | h <;> rw [h] <;> decide
    have hh : ¬ i.healthStatus = "healthy" := by
      rcases hsu with h | h <;> rw [h] <;> decide
    rw [if_neg hp, if_neg hh]
    by_cases hst : i.healthStatus = "starting"
    · rw [if_pos hst]
    · rw [if_neg hst]

/-- Closed instance of `checkContainerActualHealth_spec`: a probe-less
running container is healthy; a running container whose probe is still
`starting` is not. -/
theorem checkContainerActualHealth_spec_witness :
    (checkContainerActualHealth "c" "svc"
      { healthStatus := "", state := "running", running := "true" }).healthy = true ∧
    (checkContainerActualHealth "c" "svc"
      { healthStatus := "starting", state := "running", running := "true" }).healthy = false :=
  ⟨((checkContainerActualHealth_spec "c" "svc"
      { healthStatus := "", state := "running", running := "true" }
      (fun _ => rfl)).1 (Or.inl rfl)).mpr rfl,
   (checkContainerActualHealth_spec "c" "svc"
      { healthStatus := "starting", state := "running", running := "true" }
      (fun _ => rfl)).2.2 (Or.inl rfl)⟩

theorem waitLoop_timeout_aux (obs : Nat → List ContainerObs)
    (config : Option DeployConfig) (maxWaitTime start : Nat)
    (h : ∀ t, pollCycle config (obs t) ≠ PollOutcome.healthy) :
    ∀ n e, maxWaitTime - e ≤ n →
      ∃ eEnd, waitLoop obs config maxWaitTime start e = Except.error (start + eEnd) ∧
        ((e < maxWaitTime → eEnd < maxWaitTime + 5000) ∧ (maxWaitTime ≤ e → eEnd = e)) := by
  intro n
  induction n with
  | zero =>
    intro e he
    rw [waitLoop, dif_neg (by omega)]
    exact ⟨e, rfl, by omega, fun _ => rfl⟩
  | succ n ih =>
    intro e he
    by_cases hlt : e < maxWaitTime
    · rw [waitLoop, dif_pos hlt]
      cases hpc : pollCycle config (obs (start + e)) with
      | healthy => exact absurd hpc (h (start + e))
      | notStarted =>
        obtain ⟨eEnd, heq, hb1, hb2⟩ := ih (e + 2000) (by omega)
        exact ⟨eEnd, heq, fun _ => by omega, fun hge => by omega⟩
      | noProjectContainers =>
        obtain ⟨eEnd, heq, hb1, hb2⟩ := ih (e + 2000) (by omega)
        exact ⟨eEnd, heq, fun _ => by omega, fun hge => by omega⟩
      | restarting =>
        obtain ⟨eEnd, heq, hb1, hb2⟩ := ih (e + 3000) (by omega)
        exact ⟨eEnd, heq, fun _ => by omega, fun hge => by omega⟩
      | notAllHealthy =>
        obtain ⟨eEnd, heq, hb1, hb2⟩ := ih (e + 5000) (by omega)
        exact ⟨eEnd, heq, fun _ => by omega, fun hge => by omega⟩
    · rw [waitLoop, dif_neg hlt]
      exact ⟨e, rfl, by omega, fun _ => rfl⟩

/-- **C6**: for every execution of `waitForContainers` with deadline `D`
(`maxWaitTime`) and poll interval `P = 5000` ms (the longest sleep of
the loop) in which the observed container state never reaches the
all-healthy verdict, the loop raises the timeout error no later than
`D + P` after entry, and it never returns success (termination itself is
inherent: `waitLoop` is a total function).  Moreover the timeout
exception propagates to `deployBackend`, which catches it and finalizes
the deployment record as failed, never as success. -/
theorem waitForContainers_timeout (obs : Nat → List ContainerObs)
    (config : Option DeployConfig) (maxWaitTime start : Nat)
    (h : ∀ t, pollCycle config (obs t) ≠ PollOutcome.healthy) :
    (∃ eEnd, waitLoop obs config maxWaitTime start 0 = Except.error (start + eEnd) ∧
       eEnd ≤ maxWaitTime + 5000) ∧
    (∀ r, waitLoop obs config maxWaitTime start 0 ≠ Except.ok r) ∧
    ∀ (c : DeployConfig) (cc : Nat) (shc : Bool),
      (deployBackendRun c Environment.development true shc true true cc false).ok = false ∧
      Effect.updateStatus DeploymentStatus.failed
        ∈ (deployBackendRun c Environment.development true shc true true cc false).effects ∧
      Effect.updateStatus DeploymentStatus.success
        ∉ (deployBackendRun c Environment.development true shc true true cc false).effects := by
  obtain ⟨eEnd, heq, hb1, hb2⟩ :=
    waitLoop_timeout_aux obs config maxWaitTime start h maxWaitTime 0 (by omega)
  refine ⟨⟨eEnd, heq, by omega⟩, ?_, ?_⟩
  · intro r hr
    rw [heq] at hr
    exact Except.noConfusion hr
  · intro c cc shc
    refine ⟨?_, ?_, ?_⟩
    · simp only [deployBackendRun]
      norm_num
      split <;> simp_all [deployBackendRemoteRun, deployBackendLocalRun] <;> split <;> simp_all
    · simp only [deployBackendRun]
      norm_num
      split <;> simp_all [deployBackendRemoteRun, deployBackendLocalRun] <;> split <;> simp_all
    · simp only [deployBackendRun]
      norm_num
      split <;> simp_all [deployBackendRemoteRun, deployBackendLocalRun] <;> split <;> simp_all

/-- Closed instance of `waitForContainers_timeout`: with no containers
ever appearing and a 3-second deadline, the wait errors out within
deadline + 5000 ms. -/
theorem waitForContainers_timeout_witness :
    (∃ eEnd, waitLoop (fun _ => []) none 3000 0 0 = Except.error (0 + eEnd) ∧
       eEnd ≤ 3000 + 5000) ∧
    (∀ r, waitLoop (fun _ => []) none 3000 0 0 ≠ Except.ok r) ∧
    ∀ (c : DeployConfig) (cc : Nat) (shc : Bool),
      (deployBackendRun c Environment.development true shc true true cc false).ok = false ∧
      Effect.updateStatus DeploymentStatus.failed
        ∈ (deployBackendRun c Environment.development true shc true true cc false).effects ∧
      Effect.updateStatus DeploymentStatus.success
        ∉ (deployBackendRun c Environment.development true shc true true cc false).effects :=
  waitForContainers_timeout (fun _ => []) none 3000 0
    (fun t => by
      show pollCycle none [] ≠ PollOutcome.healthy
      decide)

/-- A remote deployment target used for the concrete scenarios. -/
def remoteConfig : DeployConfig :=
  { project := { name := "myapp", domain := "myapp.com" }
    deployment := { type := DeployType.remote, path := "/opt/deploy",
                    vps_ip := some "10.0.0.5", ssh_user := some "root",
                    ssh_key := none, confirmed := none }
    services :=
      [("api", ServiceEntry.bool true),
       ("pdf_worker", ServiceEntry.obj
         { enabled := true, dockerName := none, healthEndpoint := none, port := none }),
       ("email_worker", ServiceEntry.bool true)] }

/-- A healthy `pdf_worker` container of the project (running, no
healthcheck configured). -/
def pdfContainerObs : ContainerObs :=
  { name := "myapp-pdf-worker-1", state := "running", status := "Up 10 seconds"
    service := "myapp-pdf-worker"
    inspect := { healthStatus := "", state := "running", running := "true" } }

/-- An unhealthy container of the *other* service `email_worker` in the
same stack. -/
def emailContainerObs : ContainerObs :=
  { name := "myapp-email-worker-1", state := "running", status := "Up 10 seconds"
    service := "myapp-email-worker"
    inspect := { healthStatus := "unhealthy", state := "running", running := "true" } }

/-- World in which only the deployed `pdf_worker` container exists. -/
def obsPdfOnly : Nat → List ContainerObs := fun _ => [pdfContainerObs]

/-- World in which the deployed `pdf_worker` container is healthy but
the stack also contains the unhealthy `email_worker` container. -/
def obsMixed : Nat → List ContainerObs := fun _ => [pdfContainerObs, emailContainerObs]

/-- **C1** (code bug): the health wait of a single-service deployment is
*not* scoped to the deployed service: `deployServiceRemote` /
`deployServiceLocal` call `waitForContainers` with options carrying no
`config` and no service scope, so the poll folds over every compose
container.  With the deployed `pdf_worker` container healthy throughout,
the wait succeeds immediately when only that container exists, but times
out when an unhealthy container of the unrelated service `email_worker`
is also present — the other service's container decides the verdict,
contradicting the claim. -/
theorem deployService_healthWait_not_scoped :
    Effect.waitContainers none
      ∈ (deployServiceRemoteRun remoteConfig "pdf_worker" false true).effects ∧
    deployServiceHealthWait obsPdfOnly = Except.ok 0 ∧
    ∃ eEnd, deployServiceHealthWait obsMixed = Except.error (0 + eEnd) ∧
      eEnd ≤ defaultMaxWaitTime + 5000 := by
  refine ⟨by decide, ?_, ?_⟩
  · have hp : pollCycle none (obsPdfOnly (0 + 0)) = PollOutcome.healthy := by decide
    rw [deployServiceHealthWait, waitLoop, dif_pos (by norm_num [defaultMaxWaitTime])]
    rw [hp]
  · obtain ⟨eEnd, heq, hb1, hb2⟩ :=
      waitLoop_timeout_aux obsMixed none defaultMaxWaitTime 0
        (fun t => by
          show pollCycle none [pdfContainerObs, emailContainerObs] ≠ PollOutcome.healthy
          decide)
        defaultMaxWaitTime 0 (by omega)
    exact ⟨eEnd, heq, by omega⟩

/-- Discriminator used by the frame lemmas below: the effect is one of
the lifecycle/sync steps a deploy body performs, as opposed to a prompt,
a history-record operation or the version write. -/
def isDeployStepEffect : Effect → Bool
  | .createRemoteDir _ => true
  | .syncRootFiles => true
  | .syncBackendFolder => true
  | .syncSharedFolder => true
  | .installRemoteDeps => true
  | .remoteCmd _ => true
  | .dockerPull => true
  | .dockerUp _ => true
  | .dockerUpService _ => true
  | .waitContainers _ => true
  | .healthCheck => true
  | _ => false

theorem backendRemoteRun_steps (c : DeployConfig) (cc : Nat) (shc w : Bool) :
    ∀ e ∈ (deployBackendRemoteRun c cc shc w).effects, isDeployStepEffect e = true := by
  intro e he
  cases e <;> try rfl
  all_goals (unfold deployBackendRemoteRun at he; split_ifs at he <;> simp at he)

theorem backendLocalRun_steps (cc : Nat) (shc w : Bool) :
    ∀ e ∈ (deployBackendLocalRun cc shc w).effects, isDeployStepEffect e = true := by
  intro e he
  cases e <;> try rfl
  all_goals (unfold deployBackendLocalRun at he; split_ifs at he <;> simp at he)

theorem serviceRemoteRun_steps (c : DeployConfig) (s : String) (shc w : Bool) :
    ∀ e ∈ (deployServiceRemoteRun c s shc w).effects, isDeployStepEffect e = true := by
  intro e he
  cases e <;> try rfl
  all_goals (unfold deployServiceRemoteRun at he; split_ifs at he <;> simp at he)

theorem serviceLocalRun_steps (c : DeployConfig) (s : String) (shc w : Bool) :
    ∀ e ∈ (deployServiceLocalRun c s shc w).effects, isDeployStepEffect e = true := by
  intro e he
  cases e <;> try rfl
  all_goals (unfold deployServiceLocalRun at he; split_ifs at he <;> simp at he)

theorem serviceRun_no_confirmProd (c : DeployConfig) (s : String) (env : Environment)
    (sv shc ca vp w : Bool) :
    Effect.confirmProdPrompt ∉ (deployServiceRun c s env sv shc ca vp w).effects := by
  intro he
  have hR : Effect.confirmProdPrompt
      ∉ (deployServiceRemoteRun c (normalizeServiceNameS s) shc w).effects := by
    intro hm
    have := serviceRemoteRun_steps c (normalizeServiceNameS s) shc w _ hm
    simp [isDeployStepEffect] at this
  have hL : Effect.confirmProdPrompt
      ∉ (deployServiceLocalRun c (normalizeServiceNameS s) shc w).effects := by
    intro hm
    have := serviceLocalRun_steps c (normalizeServiceNameS s) shc w _ hm
    simp [isDeployStepEffect] at this
  simp only [deployServiceRun] at he
  split_ifs at he <;> simp_all

/-- **C2** (code bug): `writeDeployedVersion` has no call site — the
version-marker write appears in no effect trace of `deployBackend`
(whatever the configuration, environment and flags), yet a successful
remote backend deploy does finalize its record as success.  So the
success path of a remote deployment never performs the
`writeDeployedVersion` effect, contradicting the claim. -/
theorem deployBackend_success_without_writeVersion :
    (∀ (c : DeployConfig) (env : Environment) (sv shc cp vp w : Bool) (cc : Nat),
      Effect.writeVersion ∉ (deployBackendRun c env sv shc cp vp cc w).effects) ∧
    (deployBackendRun remoteConfig Environment.production false false true true 0 true).ok
      = true ∧
    Effect.updateStatus DeploymentStatus.success
      ∈ (deployBackendRun remoteConfig Environment.production
          false false true true 0 true).effects ∧
    Effect.writeVersion
      ∉ (deployBackendRun remoteConfig Environment.production
          false false true true 0 true).effects := by
  refine ⟨?_, by decide, by decide, by decide⟩
  intro c env sv shc cp vp w cc he
  have hR : Effect.writeVersion ∉ (deployBackendRemoteRun c cc shc w).effects := by
    intro hm
    have := backendRemoteRun_steps c cc shc w _ hm
    simp [isDeployStepEffect] at this
  have hL : Effect.writeVersion ∉ (deployBackendLocalRun cc shc w).effects := by
    intro hm
    have := backendLocalRun_steps cc shc w _ hm
    simp [isDeployStepEffect] at this
  simp only [deployBackendRun] at he
  split_ifs at he <;> simp_all

/-- **C4** counterexample: the single-service entry point deploys to
production with *no* double-confirmation prompt: on a valid, active
service the production trace creates the deployment record (and deploys)
without `confirmProdPrompt` ever occurring. -/
theorem deployService_production_no_prompt :
    Effect.confirmProdPrompt
      ∉ (deployServiceRun exampleConfig "api" Environment.production
          false false true true true).effects ∧
    Effect.saveDeployment DeploymentType.service (some "api")
      ∈ (deployServiceRun exampleConfig "api" Environment.production
          false false true true true).effects := by
  constructor
  · decide
  · decide

/-- **C4** (amended): the production double-confirmation holds for the
full entry point unconditionally and for the backend entry point when
validations are not skipped — in both cases declining makes the
operation return with the prompt as its only effect, before any record
is created or any external mutation — but the backend entry point skips
the prompt entirely when `skipValidations` is set, and the
single-service entry point never prompts for production at all. -/
theorem production_confirmation_spec :
    (∀ (c : DeployConfig) (sv shc vp w : Bool) (cc : Nat),
      deployAllRun c Environment.production sv shc false vp cc w
        = ⟨[Effect.confirmProdPrompt], true⟩) ∧
    (∀ (c : DeployConfig) (shc vp w : Bool) (cc : Nat),
      deployBackendRun c Environment.production false shc false vp cc w
        = ⟨[Effect.confirmProdPrompt], true⟩) ∧
    (∀ (c : DeployConfig) (env : Environment) (shc cp vp w : Bool) (cc : Nat),
      Effect.confirmProdPrompt
        ∉ (deployBackendRun c env true shc cp vp cc w).effects) ∧
    ∀ (c : DeployConfig) (s : String) (env : Environment) (sv shc ca vp w : Bool),
      Effect.confirmProdPrompt ∉ (deployServiceRun c s env sv shc ca vp w).effects := by
  refine ⟨?_, ?_, ?_, fun c s env sv shc ca vp w => serviceRun_no_confirmProd c s env sv shc ca vp w⟩
  · intro c sv shc vp w cc
    simp [deployAllRun]
  · intro c shc vp w cc
    simp [deployBackendRun]
  · intro c env shc cp vp w cc he
    have hR : Effect.confirmProdPrompt ∉ (deployBackendRemoteRun c cc shc w).effects := by
      intro hm
      have := backendRemoteRun_steps c cc shc w _ hm
      simp [isDeployStepEffect] at this
    have hL : Effect.confirmProdPrompt ∉ (deployBackendLocalRun cc shc w).effects := by
      intro hm
      have := backendLocalRun_steps cc shc w _ hm
      simp [isDeployStepEffect] at this
    simp only [deployBackendRun] at he
    split_ifs at he <;> simp_all

end Deplokit
